import Mathlib

/-!
Verification of the Python-Lua bridge (function.c, table.c) against its
natural-language specification.

The C sources are shallowly embedded: Python values and Lua stack values
become inductive types, the codec functions `Lua_push` and `Lua_to_python`
become Lean functions translated branch by branch from the source, and the
stateful entry points (`Lua_run_code`, `return_stack`, `run`, `Function_call`,
table operations, `Lua_init`) become explicit functions on a stack / state,
parameterized by the outcome of the embedded interpreter's protected call
(the Lua runtime itself is an external collaborator).

Numeric model: `lua_Integer` (C long long) is embedded as `Int` with the
signed 64-bit bounds applied exactly where the source applies them
(`PyLong_AsLongLong`, `lua_tointeger`).  `lua_Number` (C double) and Python
floats are embedded as exact rationals `ℚ`; this idealization is exact for
every value on which the source performs no rounding, and excludes NaN and
infinities.  In the one comparison the source performs on doubles
(`(lua_Number)iret == fret` in `Lua_to_python`), both sides are the same
double in C whenever the ideal values are equal, so the branch taken agrees.
-/

namespace PyLua

/-- Signed 64-bit minimum, the lower bound of C `long long` / `lua_Integer`. -/
def int64Min : Int := -(2 ^ 63)

/-- Signed 64-bit maximum, the upper bound of C `long long` / `lua_Integer`. -/
def int64Max : Int := 2 ^ 63 - 1

/-- Membership in the signed 64-bit range of `lua_Integer`. -/
def inInt64 (n : Int) : Prop := int64Min ≤ n ∧ n ≤ int64Max

instance (n : Int) : Decidable (inInt64 n) := by
  unfold inInt64
  exact instDecidableAnd

/-- Python (host) values as seen by the bridge: the scalar types the codec
converts directly, the two proxy types (`lua.Table`, `lua.Function`,
identified by the identity of the underlying Lua value they pin), and
arbitrary other host objects (identified by an opaque key). -/
inductive PyValue where
  | none
  | bool (b : Bool)
  | int (n : Int)
  | float (q : ℚ)
  | str (s : String)
  | table (id : Int)
  | func (id : Int)
  | hostObj (k : Nat)
deriving DecidableEq

/-- A host-visible call result: a single Python value, or a Python tuple of
values (what `return_stack` builds with `PyTuple_New`). -/
inductive PyRet where
  | val (v : PyValue)
  | tup (vs : List PyValue)
deriving DecidableEq

/-- Lua stack values: nil, boolean, the two numeric subtypes (integer and
float), string, table and function (identified by the underlying value
in the registry), and full userdata wrapping a Python object (the data
block of the userdata stores the `PyObject *`). -/
inductive LuaValue where
  | nil
  | boolean (b : Bool)
  | integer (n : Int)
  | number (q : ℚ)
  | str (s : String)
  | table (id : Int)
  | function (id : Int)
  | userdata (target : PyValue)
deriving DecidableEq

/-- A Lua table as an association of keys to values; an absent key reads
as nil, exactly as in the Lua data model (there is no tombstone distinct
from nil). -/
def LuaTable := List (LuaValue × LuaValue)
deriving DecidableEq

/-- Raw read of a table slot (`lua_rawgeti` / raw `lua_gettable` on a table
without an `__index` metamethod): the stored value, or nil when absent. -/
def rawget : LuaTable → LuaValue → LuaValue
  | [], _ => LuaValue.nil
  | (k, w) :: rest, key => if k = key then w else rawget rest key

/-- `PyLong_AsLongLong`: a Python int inside the signed 64-bit range converts
exactly; outside it the CPython call sets `OverflowError` and returns -1,
and `Lua_push` uses the value unchecked. -/
def pyLongAsLongLong (n : Int) : Int := if inInt64 n then n else -1

/-- `lua_tointeger`: an integer-subtype number converts to itself; a
float-subtype number converts exactly when its value is integral and
inside the `lua_Integer` range, and otherwise the call fails and yields 0;
every other tag yields 0. -/
def lua_tointeger : LuaValue → Int
  | LuaValue.integer n => n
  | LuaValue.number q => if q.den = 1 ∧ inInt64 q.num then q.num else 0
  | _ => 0

/-- `lua_tonumber`: the float reading of a number slot (an integer subtype
is converted to the float type; a float subtype is read as is); every
other tag yields 0. -/
def lua_tonumber : LuaValue → ℚ
  | LuaValue.integer n => (n : ℚ)
  | LuaValue.number q => q
  | _ => 0

/-- The `LUA_TNUMBER` branch of `Lua_to_python` (function.c:1516-1526): read
the slot as an integer and as a float; if the integer reading cast back to
the float type equals the float reading, produce a Python int, otherwise a
Python float. -/
def decode_number (v : LuaValue) : PyValue :=
  let iret := lua_tointeger v
  let fret := lua_tonumber v
  if (iret : ℚ) = fret then PyValue.int iret else PyValue.float fret

/-- Whether a Lua slot has the `LUA_TNUMBER` type tag. -/
def isNumberTag : LuaValue → Bool
  | LuaValue.integer _ => true
  | LuaValue.number _ => true
  | _ => false

/-- Decode, `Lua_to_python` (function.c:1504-1565): branch per type tag.
Tables and functions are wrapped as new proxies pinning the same
underlying value (`lua_pushvalue` + `Table_create` / `Function_create`),
so the proxy carries the identity of that value; userdata returns the
stored Python object (`data->target`, with `Py_INCREF`). -/
def Lua_to_python : LuaValue → PyValue
  | LuaValue.nil => PyValue.none
  | LuaValue.boolean b => PyValue.bool b
  | LuaValue.integer n => decode_number (LuaValue.integer n)
  | LuaValue.number q => decode_number (LuaValue.number q)
  | LuaValue.str s => PyValue.str s
  | LuaValue.table id => PyValue.table id
  | LuaValue.function id => PyValue.func id
  | LuaValue.userdata t => t

/-- Encode, `Lua_push` (function.c:1568-1591), branches in source order:
None becomes nil; a Table or Function proxy pushes the registry value it
pins; bool, int (via the checked long-long conversion), str (UTF-8 bytes)
and float push the corresponding Lua value; anything else is wrapped as a
userdata holding the Python object (`make_userdata`). -/
def Lua_push : PyValue → LuaValue
  | PyValue.none => LuaValue.nil
  | PyValue.table id => LuaValue.table id
  | PyValue.func id => LuaValue.function id
  | PyValue.bool b => LuaValue.boolean b
  | PyValue.int n => LuaValue.integer (pyLongAsLongLong n)
  | PyValue.str s => LuaValue.str s
  | PyValue.float q => LuaValue.number q
  | v => LuaValue.userdata v

/-- Whether a Python value is one of the scalar shapes named by the
round-trip property: None, bool, int, float, or text. -/
def isScalar : PyValue → Bool
  | PyValue.none => true
  | PyValue.bool _ => true
  | PyValue.int _ => true
  | PyValue.float _ => true
  | PyValue.str _ => true
  | _ => false

/-- Python `==` restricted to scalar values: numeric equality across the
int / float (and bool, which Python treats as 0 or 1) kinds, structural
equality on None and text; false on non-scalars, whose Python equality is
not structural. -/
def pyScalarEq : PyValue → PyValue → Bool
  | PyValue.none, PyValue.none => true
  | PyValue.bool a, PyValue.bool b => a == b
  | PyValue.bool a, PyValue.int m => decide ((if a then (1 : Int) else 0) = m)
  | PyValue.int n, PyValue.bool b => decide (n = (if b then (1 : Int) else 0))
  | PyValue.bool a, PyValue.float q => decide (((if a then (1 : Int) else 0) : ℚ) = q)
  | PyValue.float q, PyValue.bool b => decide (q = ((if b then (1 : Int) else 0) : ℚ))
  | PyValue.int n, PyValue.int m => decide (n = m)
  | PyValue.int n, PyValue.float q => decide ((n : ℚ) = q)
  | PyValue.float q, PyValue.int n => decide (q = (n : ℚ))
  | PyValue.float p, PyValue.float q => decide (p = q)
  | PyValue.str s, PyValue.str t => s == t
  | _, _ => false

/-- Host-visible errors raised by the bridge: `ValueError` and
`RuntimeError` with their message, the `IndexError` of `Table_getitem`
(carrying the key it names via the format string
"Key %S does not exist in Lua table"), CPython's `OverflowError`, and an
arbitrary host exception left pending by a callback (identified by an
opaque key). -/
inductive PyErr where
  | valueError (msg : String)
  | keyNotFound (key : PyValue)
  | runtimeError (msg : String)
  | overflowError
  | pending (k : Nat)
deriving DecidableEq

/-- Outcome of `lua_pcall` on the slots above `pos` (the function and its
arguments), together with whether a Python exception is pending
(`PyErr_Occurred`) when the call returns — a callback run during the call
may have raised one.  On success the runtime replaces those slots with the
returned values; on failure it replaces them with the error message. -/
inductive PCallResult where
  | ok (returns : List LuaValue) (pendingErr : Option PyErr)
  | err (msg : String) (pendingErr : Option PyErr)

/-- `return_stack` (function.c:1410-1430): the slots above `pos` are the
call's results; with `keep_single` set, or more than one result, build a
tuple of the decoded values in stack order; exactly one result is decoded
and returned alone; no result returns None.  All paths then restore the
stack to depth `pos` (`lua_settop`).  The stack is a list with its top at
the end, so the result slots are `stack.drop pos`. -/
def return_stack (stack : List LuaValue) (pos : Nat) (keep_single : Bool) :
    List LuaValue × PyRet :=
  let returns := stack.drop pos
  if keep_single ∨ 1 < returns.length then
    (stack.take pos, PyRet.tup (returns.map Lua_to_python))
  else
    match returns with
    | [v] => (stack.take pos, PyRet.val (Lua_to_python v))
    | _ => (stack.take pos, PyRet.val PyValue.none)

/-- State of the Lua value stack after a bridge call, paired with the
host-visible outcome (a Python result or a raised exception). -/
instance : DecidableEq (Except PyErr PyRet) := fun a b =>
  match a, b with
  | Except.error e, Except.error f => decidable_of_iff (e = f) (by simp)
  | Except.ok v, Except.ok w => decidable_of_iff (v = w) (by simp)
  | Except.error _, Except.ok _ => isFalse (by simp)
  | Except.ok _, Except.error _ => isFalse (by simp)

structure CodeResult where
  stack : List LuaValue
  result : Except PyErr PyRet
deriving DecidableEq

/-- `Lua_run_code` (function.c:1433-1448): run `lua_pcall` on the function
and arguments above `pos` (here `base` is the stack below them, so
`pos = base.length`).  If a Python error is pending when the call
returns, clear the whole stack (`lua_settop(state, 0)`) and raise it.
Otherwise, on a failed call raise `RuntimeError` with the message
"Error running Lua code: " followed by the Lua error text, again clearing
the whole stack; on success hand the results to `return_stack`. -/
def Lua_run_code (base : List LuaValue) (keep_single : Bool)
    (call : PCallResult) : CodeResult :=
  match call with
  | PCallResult.ok _ (some e) => CodeResult.mk [] (Except.error e)
  | PCallResult.err _ (some e) => CodeResult.mk [] (Except.error e)
  | PCallResult.ok returns none =>
      let r := return_stack (base ++ returns) base.length keep_single
      CodeResult.mk r.1 (Except.ok r.2)
  | PCallResult.err msg none =>
      CodeResult.mk []
        (Except.error (PyErr.runtimeError ("Error running Lua code: " ++ msg)))

/-- `Function_call` (function.c:53-98): push the target function from the
registry, encode and push every argument in order, and invoke through the
protected-call path `Lua_run_code`.  The embedded interpreter is the
parameter `exec`, mapping the pushed slots to the protected call's
outcome. -/
def Function_call (stack : List LuaValue) (funcId : Int) (args : List PyValue)
    (keep_single : Bool) (exec : List LuaValue → PCallResult) : CodeResult :=
  Lua_run_code stack keep_single
    (exec (LuaValue.function funcId :: args.map Lua_push))

/-- `Table_binary_operator` (table.c:170-201): push the cached operator
function, then the table and the other operand — in reversed order when
the table was the right operand — and invoke through `Lua_run_code`. -/
def Table_binary_operator (stack : List LuaValue) (opFunId : Int)
    (tableId : Int) (other : PyValue) (reverse : Bool)
    (exec : List LuaValue → PCallResult) : CodeResult :=
  let args :=
    if reverse then [Lua_push other, LuaValue.table tableId]
    else [LuaValue.table tableId, Lua_push other]
  Lua_run_code stack false (exec (LuaValue.function opFunId :: args))

/-- Outcome of `luaL_loadbuffer`: the compiled chunk pushed, or a compile
failure whose message the loader pushes on the stack. -/
inductive LoadResult where
  | ok
  | err (msg : String)

/-- State owned by one Lua environment that the run entry points touch:
the global table (for `set`) and the value stack. -/
structure LuaState where
  globals : List (String × LuaValue)
  stack : List LuaValue
deriving DecidableEq

/-- Update of one field of the global table (`lua_setfield` on the globals
holder). -/
def setfield : List (String × LuaValue) → String → LuaValue →
    List (String × LuaValue)
  | [], name, v => [(name, v)]
  | (k, w) :: rest, name, v =>
      if k = name then (k, v) :: rest else (k, w) :: setfield rest name v

/-- The static `set` helper (function.c:1403-1408): push the globals table,
encode the value, store it under `name`, pop; the stack is left
balanced. -/
def set (g : List (String × LuaValue)) (name : String) (value : PyValue) :
    List (String × LuaValue) :=
  setfield g name (Lua_push value)

/-- The static `run` (function.c:1451-1460): record the stack top, load the
buffer — a failed load leaves the compiler's message pushed on the stack
and raises `ValueError` with that message — then execute the chunk through
`Lua_run_code` with zero arguments. -/
def run_string (st : LuaState) (keep_single : Bool) (load : LoadResult)
    (call : PCallResult) : LuaState × Except PyErr PyRet :=
  match load with
  | LoadResult.err msg =>
      ({ st with stack := st.stack ++ [LuaValue.str msg] },
        Except.error (PyErr.valueError msg))
  | LoadResult.ok =>
      let r := Lua_run_code st.stack keep_single call
      ({ st with stack := r.stack }, r.result)

/-- The Python-visible method `Lua_run` (function.c:1626-1662): after
parsing `code`, `description`, `var`, `value`, `keep_single`, if `var` or
`value` is given then both must be, else `ValueError` is raised before
anything is set, loaded or executed; with both given the variable is set
first and the code is then run on the updated state. -/
def Lua_run (st : LuaState) (_description : Option String)
    (var : Option String) (value : Option PyValue) (keep_single : Bool)
    (load : LoadResult) (call : PCallResult) :
    LuaState × Except PyErr PyRet :=
  match var, value with
  | Option.none, Option.none => run_string st keep_single load call
  | some v, some val =>
      run_string { st with globals := set st.globals v val }
        keep_single load call
  | _, _ =>
      (st, Except.error (PyErr.valueError
        ("var and value must both be present, or both be missing")))

/-- Whether a decoded value is the Python `None` singleton (the pointer
comparison `ret == Py_None`). -/
def isNone : PyValue → Bool
  | PyValue.none => true
  | _ => false

/-- `Table_getitem` (table.c:78-93): push the table, encode the key, read
the slot (`lua_gettable`; equal to the raw read on a table without an
`__index` metamethod, which is how this model represents tables), decode
it, pop both; a decoded `None` — the key being absent, or its entry being
nil — raises `IndexError` naming the key, anything else is returned. -/
def Table_getitem (t : LuaTable) (key : PyValue) : Except PyErr PyValue :=
  let ret := Lua_to_python (rawget t (Lua_push key))
  if isNone ret then Except.error (PyErr.keyNotFound key)
  else Except.ok ret

/-- `table_list_method` (table.c:412-448): read the table's length
(`lua_len`, whose result on a table with holes is one of the table's
borders, chosen by the runtime — here the parameter `length`), allocate a
list of that size, and fill slot `i - 1` with the decoded raw read of
index `i` for every `i` from 1 to `length`, with no early stop. -/
def table_list_method (t : LuaTable) (length : Nat) : List PyValue :=
  (List.range length).map
    (fun i => Lua_to_python (rawget t (LuaValue.integer (Int.ofNat i + 1))))

/-- Helper for `table_list_spec`: read indices `i, i+1, ...` while at most
`fuel` slots remain, stopping at the first slot that decodes to None. -/
def table_list_spec_from (t : LuaTable) : Nat → Nat → List PyValue
  | _, 0 => []
  | i, Nat.succ fuel =>
      let v := Lua_to_python (rawget t (LuaValue.integer (Int.ofNat i)))
      if isNone v then [] else v :: table_list_spec_from t (i + 1) fuel

/-- The `toList` contract as the specification words it: read the length,
then sequentially read indices 1..length, decoding each, and stop and
return the list built so far as soon as any index decodes to None.  This
definition follows the spec's words (and the repository's own manual
page); it is the comparison point for `table_list_method`, which is
translated from the code. -/
def table_list_spec (t : LuaTable) (length : Nat) : List PyValue :=
  table_list_spec_from t 1 length

/-- A border of a table in the sense of the Lua length operator: an index
`n` with `t[n]` non-nil (or `n = 0`) and `t[n + 1]` nil.  On a table with
holes the length operator may report any border. -/
def isBorder (t : LuaTable) (n : Nat) : Prop :=
  (n = 0 ∨ rawget t (LuaValue.integer (Int.ofNat n)) ≠ LuaValue.nil) ∧
  rawget t (LuaValue.integer (Int.ofNat n + 1)) = LuaValue.nil

instance (t : LuaTable) (n : Nat) : Decidable (isBorder t n) := by
  unfold isBorder
  exact instDecidableAnd

/-- The rich-comparison operators of `tp_richcompare`. -/
inductive PyCmp where
  | lt
  | le
  | gt
  | ge
  | eq
  | ne
deriving DecidableEq

/-- The embedded comparison operators that have cached wrapper functions. -/
inductive LuaCmpOp where
  | lt
  | le
  | eq
deriving DecidableEq

/-- The reversal switch of `Table_richcompare` (table.c:295-314): when the
table was the right operand, swap less-than with greater-than and
less-or-equal with greater-or-equal; equality and inequality are
unchanged. -/
def flipReversed : PyCmp → PyCmp
  | PyCmp.lt => PyCmp.gt
  | PyCmp.le => PyCmp.ge
  | PyCmp.gt => PyCmp.lt
  | PyCmp.ge => PyCmp.le
  | PyCmp.eq => PyCmp.eq
  | PyCmp.ne => PyCmp.ne

/-- The dispatch switch of `Table_richcompare` (table.c:317-345): which
cached Lua operator to call and whether to negate its result
(`PyObject_Not`): greater-than is not-less-or-equal, greater-or-equal is
not-less-than, and inequality is not-equal. -/
def luaCompareOp : PyCmp → LuaCmpOp × Bool
  | PyCmp.lt => (LuaCmpOp.lt, false)
  | PyCmp.le => (LuaCmpOp.le, false)
  | PyCmp.gt => (LuaCmpOp.le, true)
  | PyCmp.ge => (LuaCmpOp.lt, true)
  | PyCmp.eq => (LuaCmpOp.eq, false)
  | PyCmp.ne => (LuaCmpOp.eq, true)

/-- Whether a Python value is a `lua.Table` proxy
(`PyObject_IsInstance(..., table_type)`). -/
def isTableVal : PyValue → Bool
  | PyValue.table _ => true
  | _ => false

/-- What one `Table_richcompare` call hands to the embedded runtime: the
cached operator called, the two operand slots in push order, and whether
the decoded result is negated afterwards. -/
structure CmpDispatch where
  luaOp : LuaCmpOp
  pushedArgs : LuaValue × LuaValue
  invert : Bool
deriving DecidableEq

/-- The operand selection of `Table_richcompare` (table.c:276-351): the
table operand becomes `self` (the left operand wins when both are
tables), the other operand and the reversal flag follow, the operator is
flipped when reversed, and the arguments are pushed as the table's value
(`lua_rawgeti` of its registry slot) first, the encoded other operand
second — in both directions.  A comparison with no table operand raises
`ValueError` (the `None` case here). -/
def Table_richcompare_dispatch (lhs rhs : PyValue) (op : PyCmp) :
    Option CmpDispatch :=
  if isTableVal lhs then
    let p := luaCompareOp op
    some (CmpDispatch.mk p.1 (Lua_push lhs, Lua_push rhs) p.2)
  else if isTableVal rhs then
    let p := luaCompareOp (flipReversed op)
    some (CmpDispatch.mk p.1 (Lua_push rhs, Lua_push lhs) p.2)
  else
    Option.none

/-- The value `Table_richcompare` returns on the successful path: the
dispatched cached comparison runs under `Lua_run_code` and its boolean
result is decoded (the parameter `cmp` is the embedded runtime's answer
for the pushed operands); with the invert flag the final answer is its
negation (`PyObject_Not`). -/
def Table_richcompare (cmp : LuaCmpOp → LuaValue → LuaValue → Bool)
    (lhs rhs : PyValue) (op : PyCmp) : Option PyValue :=
  (Table_richcompare_dispatch lhs rhs op).map
    (fun d =>
      let r := cmp d.luaOp d.pushedArgs.1 d.pushedArgs.2
      if d.invert then PyValue.bool (!r) else PyValue.bool r)

/-- Negation of a decoded boolean result (`PyObject_Not` on the values the
comparison wrappers produce). -/
def pyBoolNot : PyValue → PyValue
  | PyValue.bool b => PyValue.bool (!b)
  | v => v

/-- The capability flags of the constructor, in the keyword order of
`Lua_init` (function.c:1249). -/
structure LuaFlags where
  debug : Bool
  loadlib : Bool
  searchers : Bool
  doloadfile : Bool
  io : Bool
  os : Bool
  python_module : Bool
deriving DecidableEq

/-- The keyword parsing of `Lua_init` (function.c:1242-1251): each local
starts at false except `python_module` at true, and a keyword argument
overrides its local when given. -/
def parseFlags (debug loadlib searchers doloadfile io os python_module :
    Option Bool) : LuaFlags :=
  LuaFlags.mk (debug.getD false) (loadlib.getD false) (searchers.getD false)
    (doloadfile.getD false) (io.getD false) (os.getD false)
    (python_module.getD true)

/-- The standard-library surfaces an Environment touches at construction:
the `debug` library, `package.loadlib`, `package.searchers`, `loadfile`
and `dofile`, the `os` library table, the `io` library, their mirrors
under `package.loaded`, and the `python` module installed under
`package.loaded` when requested. -/
structure Globals where
  debugLib : LuaValue
  loadedDebug : LuaValue
  packageLoadlib : LuaValue
  packageSearchers : List LuaValue
  loadfile : LuaValue
  dofile : LuaValue
  osLib : LuaTable
  loadedOs : LuaTable
  ioLib : LuaValue
  loadedIo : LuaValue
  loadedPython : LuaValue
deriving DecidableEq

/-- The globals right after `luaL_openlibs`: every touched surface present,
with distinct identities; the `os` table carries its full function set,
`os.execute` among them. -/
def initialGlobals : Globals :=
  Globals.mk (LuaValue.table 100) (LuaValue.table 100) (LuaValue.function 101)
    [LuaValue.function 102, LuaValue.function 103, LuaValue.function 104,
      LuaValue.function 105]
    (LuaValue.function 106) (LuaValue.function 107)
    [(LuaValue.str ("execute"), LuaValue.function 108),
      (LuaValue.str ("clock"), LuaValue.function 109),
      (LuaValue.str ("date"), LuaValue.function 110),
      (LuaValue.str ("difftime"), LuaValue.function 111),
      (LuaValue.str ("getenv"), LuaValue.function 112),
      (LuaValue.str ("exit"), LuaValue.function 113),
      (LuaValue.str ("remove"), LuaValue.function 114),
      (LuaValue.str ("rename"), LuaValue.function 115),
      (LuaValue.str ("setlocale"), LuaValue.function 116),
      (LuaValue.str ("time"), LuaValue.function 117),
      (LuaValue.str ("tmpname"), LuaValue.function 118)]
    [(LuaValue.str ("execute"), LuaValue.function 108),
      (LuaValue.str ("clock"), LuaValue.function 109),
      (LuaValue.str ("date"), LuaValue.function 110),
      (LuaValue.str ("difftime"), LuaValue.function 111),
      (LuaValue.str ("getenv"), LuaValue.function 112),
      (LuaValue.str ("exit"), LuaValue.function 113),
      (LuaValue.str ("remove"), LuaValue.function 114),
      (LuaValue.str ("rename"), LuaValue.function 115),
      (LuaValue.str ("setlocale"), LuaValue.function 116),
      (LuaValue.str ("time"), LuaValue.function 117),
      (LuaValue.str ("tmpname"), LuaValue.function 118)]
    (LuaValue.table 119) (LuaValue.table 119) LuaValue.nil

/-- Effect of the snippet "debug = nil package.loaded.debug = nil"
(function.c:1346). -/
def disable_debug (g : Globals) : Globals :=
  { g with debugLib := LuaValue.nil, loadedDebug := LuaValue.nil }

/-- Effect of the snippet "package.loadlib = nil" (function.c:1350). -/
def disable_loadlib (g : Globals) : Globals :=
  { g with packageLoadlib := LuaValue.nil }

/-- Effect of the snippet "package.searchers = \x7b\x7d"
(function.c:1354). -/
def disable_searchers (g : Globals) : Globals :=
  { g with packageSearchers := [] }

/-- Effect of the snippet "loadfile = nil dofile = nil"
(function.c:1358). -/
def disable_doloadfile (g : Globals) : Globals :=
  { g with loadfile := LuaValue.nil, dofile := LuaValue.nil }

/-- Effect of the snippet replacing `os` by a fresh table keeping only
clock, date, difftime, setlocale and time, also stored under
`package.loaded.os` (function.c:1362). -/
def disable_os (g : Globals) : Globals :=
  let newOs : LuaTable :=
    [(LuaValue.str ("clock"), rawget g.osLib (LuaValue.str ("clock"))),
      (LuaValue.str ("date"), rawget g.osLib (LuaValue.str ("date"))),
      (LuaValue.str ("difftime"), rawget g.osLib (LuaValue.str ("difftime"))),
      (LuaValue.str ("setlocale"),
        rawget g.osLib (LuaValue.str ("setlocale"))),
      (LuaValue.str ("time"), rawget g.osLib (LuaValue.str ("time")))]
  { g with osLib := newOs, loadedOs := newOs }

/-- Effect of the snippet "io = nil package.loaded.io = nil"
(function.c:1366). -/
def disable_io (g : Globals) : Globals :=
  { g with ioLib := LuaValue.nil, loadedIo := LuaValue.nil }

/-- The construction-time capability gating of `Lua_init`
(function.c:1344-1388): after the libraries are opened, each flag left
false has its surface removed or replaced, in source order (debug,
loadlib, searchers, doloadfile, os, io), and then the `python` module is
installed under `package.loaded` when `python_module` is set — all of it
before any user script can run. -/
def Lua_init_globals (flags : LuaFlags) (g : Globals) : Globals :=
  let g := if flags.debug then g else disable_debug g
  let g := if flags.loadlib then g else disable_loadlib g
  let g := if flags.searchers then g else disable_searchers g
  let g := if flags.doloadfile then g else disable_doloadfile g
  let g := if flags.os then g else disable_os g
  let g := if flags.io then g else disable_io g
  if flags.python_module then { g with loadedPython := LuaValue.table 200 }
  else g

/-- Calling a Lua value: a function value runs in the embedded runtime
(outcome given by the parameter); calling nil — the case the claims
exercise — fails inside the protected call with the runtime's
attempt-to-call-a-nil-value error. -/
def callValue (v : LuaValue) (ifCallable : PCallResult) : PCallResult :=
  match v with
  | LuaValue.function _ => ifCallable
  | _ => PCallResult.err ("attempt to call a nil value") Option.none

/-- Running the chunk "os.execute()" on an environment: index the `os`
table at "execute" and call the result, through the protected-call path
`Lua_run_code` on an empty stack. -/
def run_os_execute (g : Globals) (ifCallable : PCallResult) : CodeResult :=
  Lua_run_code [] false
    (callValue (rawget g.osLib (LuaValue.str ("execute"))) ifCallable)

/-- The table of the spec's hole-truncation example, with integer keys
1, 2 and 4 and key 3 absent. -/
def t_hole : LuaTable :=
  [(LuaValue.integer 1, LuaValue.integer 10),
    (LuaValue.integer 2, LuaValue.integer 20),
    (LuaValue.integer 4, LuaValue.integer 40)]

theorem return_stack_append (base rs : List LuaValue) (ks : Bool) :
    return_stack (base ++ rs) base.length ks
      = if ks ∨ 1 < rs.length then (base, PyRet.tup (rs.map Lua_to_python))
        else
          match rs with
          | [v] => (base, PyRet.val (Lua_to_python v))
          | _ => (base, PyRet.val PyValue.none) := by
  unfold return_stack
  simp [List.drop_left, List.take_left]

theorem decode_number_ne_none (v : LuaValue) :
    decode_number v ≠ PyValue.none := by
  simp only [decode_number]
  split <;> simp

/-- C1: the embedded value stack is NOT restored to its pre-call depth on
every exit path, contradicting the stack-depth invariant the spec states.
Evaluating the embedded code at the failing inputs: a `run` whose chunk
fails to compile leaves the compiler's error message on the stack (depth
grows from 0 to 1), and the error exits of `Lua_run_code` — a failed
protected call, or a pending host exception — clear the stack to depth 0
instead of the pre-call depth (here 1). -/
theorem C1_stack_depth_not_restored :
    (run_string (LuaState.mk [] []) false (LoadResult.err ("bad syntax"))
        (PCallResult.ok [] Option.none)).1.stack
      = [LuaValue.str ("bad syntax")] ∧
    (run_string (LuaState.mk [] []) false (LoadResult.err ("bad syntax"))
        (PCallResult.ok [] Option.none)).1.stack.length
      ≠ (LuaState.mk [] []).stack.length ∧
    (Lua_run_code [LuaValue.integer 7] false
        (PCallResult.err ("boom") Option.none)).stack.length
      ≠ ([LuaValue.integer 7] : List LuaValue).length ∧
    (Lua_run_code [LuaValue.integer 7] false
        (PCallResult.ok [] (some (PyErr.pending 0)))).stack.length
      ≠ ([LuaValue.integer 7] : List LuaValue).length := by
  refine ⟨rfl, by decide, by decide, by decide⟩

/-- C2: for a successful invocation of a Lua function from Python, zero
returned values yield None, exactly one yields that decoded value, two or
more yield a tuple of the decoded values in order and of that length, and
with `keep_single` set the result is always a tuple; `run` hands its
result through the same `Lua_run_code` path. -/
theorem C2_return_collapsing (stack : List LuaValue) (fid : Int)
    (args : List PyValue) (rs : List LuaValue) :
    (rs = [] →
      (Function_call stack fid args false
          (fun _ => PCallResult.ok rs Option.none)).result
        = Except.ok (PyRet.val PyValue.none)) ∧
    (∀ v, rs = [v] →
      (Function_call stack fid args false
          (fun _ => PCallResult.ok rs Option.none)).result
        = Except.ok (PyRet.val (Lua_to_python v))) ∧
    (2 ≤ rs.length →
      (Function_call stack fid args false
          (fun _ => PCallResult.ok rs Option.none)).result
        = Except.ok (PyRet.tup (rs.map Lua_to_python))
        ∧ (rs.map Lua_to_python).length = rs.length) ∧
    ((Function_call stack fid args true
        (fun _ => PCallResult.ok rs Option.none)).result
      = Except.ok (PyRet.tup (rs.map Lua_to_python))) ∧
    (∀ st ks call, (run_string st ks LoadResult.ok call).2
        = (Lua_run_code st.stack ks call).result) := by
  refine ⟨?_, ?_, ?_, ?_, fun st ks call => rfl⟩
  · intro h
    subst h
    simp [Function_call, Lua_run_code, return_stack, List.drop_length,
      List.take_length]
  · intro v h
    subst h
    simp [Function_call, Lua_run_code, return_stack_append]
  · intro h
    have h1 : 1 < rs.length := h
    constructor
    · simp [Function_call, Lua_run_code, return_stack_append, h1]
    · simp
  · simp [Function_call, Lua_run_code, return_stack_append]

/-- C2 witness: calling a function that returns the single Lua integer 3
yields that decoded value. -/
theorem C2_return_collapsing_witness :
    (Function_call [] 1 [] false
        (fun _ => PCallResult.ok [LuaValue.integer 3] Option.none)).result
      = Except.ok (PyRet.val (Lua_to_python (LuaValue.integer 3))) :=
  (C2_return_collapsing [] 1 [] [LuaValue.integer 3]).2.1
    (LuaValue.integer 3) rfl

/-- C3 counterexample: when the protected call fails while a host exception
is pending (raised by a callback during the call), `Lua_run_code` raises
that pending exception, not a RuntimeError carrying the embedded error
message — so the claim as stated fails at this input. -/
theorem C3_pending_error_counterexample :
    (Function_call [] 1 [] false
        (fun _ => PCallResult.err ("boom") (some (PyErr.pending 0)))).result
      = Except.error (PyErr.pending 0) ∧
    (Function_call [] 1 [] false
        (fun _ => PCallResult.err ("boom") (some (PyErr.pending 0)))).result
      ≠ Except.error
          (PyErr.runtimeError ("Error running Lua code: boom")) := by
  exact ⟨rfl, by decide⟩

/-- C3 amended: every Callable Proxy invocation and every cached-operator
call runs through the protected-call path `Lua_run_code` and returns a
host-visible outcome for every runtime result (never an abort); when the
embedded runtime reports failure and no host exception is pending, a
RuntimeError carrying the embedded error message text is raised; a
pending host exception is propagated instead. -/
theorem C3_protected_call_failure (stack : List LuaValue) (fid tid opid : Int)
    (args : List PyValue) (other : PyValue) (rev ks : Bool) (msg : String) :
    (Function_call stack fid args ks
        (fun _ => PCallResult.err msg Option.none)).result
      = Except.error
          (PyErr.runtimeError ("Error running Lua code: " ++ msg)) ∧
    (Table_binary_operator stack opid tid other rev
        (fun _ => PCallResult.err msg Option.none)).result
      = Except.error
          (PyErr.runtimeError ("Error running Lua code: " ++ msg)) ∧
    (∀ e, (Function_call stack fid args ks
        (fun _ => PCallResult.err msg (some e))).result = Except.error e) :=
  ⟨rfl, rfl, fun _ => rfl⟩

/-- C4: evaluating `table_list_method` at the failing input — the spec's
own table with keys 1, 2, 4 and the runtime reporting border 4 as the
length — shows the code reads all indices 1..length with no early stop,
while the specification (and the repository's manual page) require the
list to stop at the first index that decodes to None. -/
theorem C4_toList_no_truncation :
    isBorder t_hole 4 ∧
    table_list_method t_hole 4
      = [PyValue.int 10, PyValue.int 20, PyValue.none, PyValue.int 40] ∧
    table_list_spec t_hole 4 = [PyValue.int 10, PyValue.int 20] ∧
    table_list_method t_hole 4 ≠ table_list_spec t_hole 4 := by
  refine ⟨by decide, by decide, by decide, by decide⟩

/-- C5 counterexample: the host integer 2^63 is outside the signed 64-bit
range, so `Lua_push` encodes it through the failing checked conversion as
-1 and the round trip does not return an equal value — the claim as
stated, over every host integer, fails at this input. -/
theorem C5_roundtrip_counterexample :
    isScalar (PyValue.int (2 ^ 63)) = true ∧
    Lua_to_python (Lua_push (PyValue.int (2 ^ 63))) = PyValue.int (-1) ∧
    pyScalarEq (Lua_to_python (Lua_push (PyValue.int (2 ^ 63))))
        (PyValue.int (2 ^ 63)) = false := by
  refine ⟨rfl, by decide, by decide⟩

/-- C5 amended: for every host scalar that is None, a boolean, a float, a
text string, or an integer within the signed 64-bit range of
`lua_Integer`, encoding onto the Lua stack and decoding back yields a
value equal (under Python equality, which identifies an integral float
with its integer) to the original; integral floats come back as integers
per the integer-detection rule of decode. -/
theorem C5_scalar_roundtrip (v : PyValue) (hs : isScalar v = true)
    (hr : ∀ n : Int, v = PyValue.int n → inInt64 n) :
    pyScalarEq (Lua_to_python (Lua_push v)) v = true := by
  cases v with
  | none => rfl
  | bool b => simp [Lua_push, Lua_to_python, pyScalarEq]
  | int n =>
      have h := hr n rfl
      simp [Lua_push, pyLongAsLongLong, h, Lua_to_python, decode_number,
        lua_tointeger, lua_tonumber, pyScalarEq]
  | float q =>
      by_cases hq : q.den = 1 ∧ inInt64 q.num
      · simp [Lua_push, Lua_to_python, decode_number, lua_tointeger,
          lua_tonumber, hq, pyScalarEq,
          Rat.coe_int_num_of_den_eq_one hq.1]
      · have hq0 : q ≠ 0 := by
          intro h0
          subst h0
          exact hq (by decide)
        simp [Lua_push, Lua_to_python, decode_number, lua_tointeger,
          lua_tonumber, hq, pyScalarEq, Ne.symm hq0]
  | str s => simp [Lua_push, Lua_to_python, pyScalarEq]
  | table id => simp [isScalar] at hs
  | func id => simp [isScalar] at hs
  | hostObj k => simp [isScalar] at hs

/-- C5 witness: the in-range integer 42 and the non-integral float 3/2
round-trip to equal values. -/
theorem C5_scalar_roundtrip_witness :
    pyScalarEq (Lua_to_python (Lua_push (PyValue.int 42)))
        (PyValue.int 42) = true ∧
    pyScalarEq (Lua_to_python (Lua_push (PyValue.float (mkRat 3 2))))
        (PyValue.float (mkRat 3 2)) = true :=
  ⟨C5_scalar_roundtrip (PyValue.int 42) (by decide)
      (fun n h => by injection h with h2; subst h2; decide),
    C5_scalar_roundtrip (PyValue.float (mkRat 3 2)) (by decide)
      (fun n h => by cases h)⟩

/-- C6: decoding a Lua number follows the integer-detection rule of the
source — if the integer reading of the slot, cast back to the float
representation, equals its float reading, the result is a host integer
with that value, otherwise a host float with the float value; on the
float subtype this makes the result an integer exactly when the value is
integral and inside the `lua_Integer` range, and the integer subtype
always decodes to a host integer. -/
theorem C6_number_decoding (v : LuaValue) (h : isNumberTag v = true) :
    Lua_to_python v
      = (if (lua_tointeger v : ℚ) = lua_tonumber v
          then PyValue.int (lua_tointeger v)
          else PyValue.float (lua_tonumber v)) ∧
    (∀ q : ℚ, Lua_to_python (LuaValue.number q)
        = (if q.den = 1 ∧ inInt64 q.num then PyValue.int q.num
            else PyValue.float q)) ∧
    (∀ n : Int, Lua_to_python (LuaValue.integer n) = PyValue.int n) := by
  refine ⟨?_, ?_, ?_⟩
  · cases v with
    | integer n => simp [Lua_to_python, decode_number]
    | number q => simp [Lua_to_python, decode_number]
    | nil => simp [isNumberTag] at h
    | boolean b => simp [isNumberTag] at h
    | str s => simp [isNumberTag] at h
    | table id => simp [isNumberTag] at h
    | function id => simp [isNumberTag] at h
    | userdata t => simp [isNumberTag] at h
  · intro q
    by_cases hq : q.den = 1 ∧ inInt64 q.num
    · simp [Lua_to_python, decode_number, lua_tointeger, lua_tonumber, hq,
        Rat.coe_int_num_of_den_eq_one hq.1]
    · have hq0 : q ≠ 0 := by
        intro h0
        subst h0
        exact hq (by decide)
      simp [Lua_to_python, decode_number, lua_tointeger, lua_tonumber, hq,
        Ne.symm hq0]
  · intro n
    simp [Lua_to_python, decode_number, lua_tointeger, lua_tonumber]

/-- C6 witness: the non-integral float 3/2 decodes to a host float. -/
theorem C6_number_decoding_witness :
    isNumberTag (LuaValue.number (mkRat 3 2)) = true ∧
    Lua_to_python (LuaValue.number (mkRat 3 2))
      = PyValue.float (mkRat 3 2) := by
  refine ⟨by decide, ?_⟩
  have h := (C6_number_decoding (LuaValue.number (mkRat 3 2))
    (by decide)).2.1 (mkRat 3 2)
  rw [if_neg (by decide)] at h
  exact h

/-- C7: a rich comparison whose right operand is a Table proxy and whose
left operand is not dispatches exactly as the same comparison with the
operands exchanged and the operator flipped (less-than with greater-than,
less-or-equal with greater-or-equal); inequality is the negation of the
embedded equality operator's result; and the operands are always pushed
as the table's value first and the encoded other operand second. -/
theorem C7_reflected_comparison (cmp : LuaCmpOp → LuaValue → LuaValue → Bool)
    (lhs rhs : PyValue) (op : PyCmp)
    (h1 : isTableVal lhs = false) (h2 : isTableVal rhs = true) :
    Table_richcompare cmp lhs rhs op
      = Table_richcompare cmp rhs lhs (flipReversed op) ∧
    (flipReversed PyCmp.lt = PyCmp.gt ∧ flipReversed PyCmp.le = PyCmp.ge ∧
      flipReversed PyCmp.gt = PyCmp.lt ∧ flipReversed PyCmp.ge = PyCmp.le) ∧
    Table_richcompare cmp lhs rhs PyCmp.ne
      = (Table_richcompare cmp lhs rhs PyCmp.eq).map pyBoolNot ∧
    (∀ d, Table_richcompare_dispatch lhs rhs op = some d →
        d.pushedArgs = (Lua_push rhs, Lua_push lhs)) := by
  refine ⟨?_, ⟨rfl, rfl, rfl, rfl⟩, ?_, ?_⟩
  · simp [Table_richcompare, Table_richcompare_dispatch, h1, h2]
  · simp [Table_richcompare, Table_richcompare_dispatch, h1, h2,
      flipReversed, luaCompareOp, pyBoolNot]
  · intro d hd
    simp [Table_richcompare_dispatch, h1, h2] at hd
    subst hd
    rfl

/-- C7 witness: the reflected less-than against a table proxy equals the
direct greater-than with the operands exchanged. -/
theorem C7_reflected_comparison_witness :
    isTableVal (PyValue.int 0) = false ∧
    isTableVal (PyValue.table 5) = true ∧
    Table_richcompare (fun _ _ _ => true) (PyValue.int 0) (PyValue.table 5)
        PyCmp.lt
      = Table_richcompare (fun _ _ _ => true) (PyValue.table 5)
          (PyValue.int 0) (flipReversed PyCmp.lt) :=
  ⟨rfl, rfl,
    (C7_reflected_comparison (fun _ _ _ => true) (PyValue.int 0)
        (PyValue.table 5) PyCmp.lt rfl rfl).1⟩

/-- C8: a Table proxy get whose read slot decodes to None — the key being
absent, or its entry explicitly nil, which read identically — fails with
the IndexError naming the key, and any other decoded value is returned;
a slot decodes to None exactly when it is nil (given the one shape the
bridge never builds, a userdata wrapping Python None, is absent). -/
theorem C8_getitem_null_is_keyerror (t : LuaTable) (key : PyValue) :
    (Lua_to_python (rawget t (Lua_push key)) = PyValue.none →
      Table_getitem t key = Except.error (PyErr.keyNotFound key)) ∧
    (∀ v, Lua_to_python (rawget t (Lua_push key)) = v → v ≠ PyValue.none →
      Table_getitem t key = Except.ok v) ∧
    (rawget t (Lua_push key) ≠ LuaValue.userdata PyValue.none →
      (Lua_to_python (rawget t (Lua_push key)) = PyValue.none ↔
        rawget t (Lua_push key) = LuaValue.nil)) := by
  refine ⟨?_, ?_, ?_⟩
  · intro h
    unfold Table_getitem
    rw [h]
    rfl
  · intro v hv hne
    unfold Table_getitem
    rw [hv]
    have hn : isNone v = false := by
      cases v
      case none => exact absurd rfl hne
      all_goals rfl
    simp [hn]
  · intro hw
    constructor
    · intro h
      cases hval : rawget t (Lua_push key) with
      | nil => rfl
      | boolean b => rw [hval] at h; simp [Lua_to_python] at h
      | integer n =>
          rw [hval] at h
          exact absurd h (decode_number_ne_none (LuaValue.integer n))
      | number q =>
          rw [hval] at h
          exact absurd h (decode_number_ne_none (LuaValue.number q))
      | str s => rw [hval] at h; simp [Lua_to_python] at h
      | table id => rw [hval] at h; simp [Lua_to_python] at h
      | function id => rw [hval] at h; simp [Lua_to_python] at h
      | userdata u =>
          rw [hval] at h
          simp [Lua_to_python] at h
          rw [hval, h] at hw
          exact absurd rfl hw
    · intro h
      rw [h]
      rfl

/-- C8 witness: reading key 1 of the empty table raises the IndexError
naming the key. -/
theorem C8_getitem_witness :
    Table_getitem [] (PyValue.int 1)
      = Except.error (PyErr.keyNotFound (PyValue.int 1)) :=
  (C8_getitem_null_is_keyerror [] (PyValue.int 1)).1 rfl

/-- C9: every constructor capability flag defaults to false except
`python_module`, which defaults to true; for every flag left false the
corresponding standard-library surface is removed or replaced at
construction; and in the environment built with every flag false the
`os.execute` binding is nil, so running `os.execute()` fails through the
protected call with a RuntimeError, because the binding was removed. -/
theorem C9_capability_gating :
    parseFlags Option.none Option.none Option.none Option.none Option.none
        Option.none Option.none
      = LuaFlags.mk false false false false false false true ∧
    (∀ flags g,
      (Lua_init_globals flags g).debugLib
          = (if flags.debug then g.debugLib else LuaValue.nil) ∧
      (Lua_init_globals flags g).loadedDebug
          = (if flags.debug then g.loadedDebug else LuaValue.nil) ∧
      (Lua_init_globals flags g).packageLoadlib
          = (if flags.loadlib then g.packageLoadlib else LuaValue.nil) ∧
      (Lua_init_globals flags g).packageSearchers
          = (if flags.searchers then g.packageSearchers else []) ∧
      (Lua_init_globals flags g).loadfile
          = (if flags.doloadfile then g.loadfile else LuaValue.nil) ∧
      (Lua_init_globals flags g).dofile
          = (if flags.doloadfile then g.dofile else LuaValue.nil) ∧
      (flags.os = false →
        rawget (Lua_init_globals flags g).osLib (LuaValue.str ("execute"))
          = LuaValue.nil) ∧
      (Lua_init_globals flags g).ioLib
          = (if flags.io then g.ioLib else LuaValue.nil) ∧
      (Lua_init_globals flags g).loadedPython
          = (if flags.python_module then LuaValue.table 200
              else g.loadedPython)) ∧
    rawget (Lua_init_globals
        (LuaFlags.mk false false false false false false false)
        initialGlobals).osLib (LuaValue.str ("execute")) = LuaValue.nil ∧
    (∀ ifc, run_os_execute
        (Lua_init_globals
          (LuaFlags.mk false false false false false false false)
          initialGlobals) ifc
      = CodeResult.mk []
          (Except.error (PyErr.runtimeError
            ("Error running Lua code: attempt to call a nil value")))) := by
  refine ⟨rfl, ?_, by decide, fun ifc => rfl⟩
  intro flags g
  obtain ⟨d, l, s, dl, io2, os2, pm⟩ := flags
  cases d <;> cases l <;> cases s <;> cases dl <;> cases io2 <;> cases os2
    <;> cases pm <;>
    simp [Lua_init_globals, disable_debug, disable_loadlib,
      disable_searchers, disable_doloadfile, disable_os, disable_io, rawget]

/-- C9 witness: the all-false environment has every gated surface removed,
by the theorem applied at the all-false flags and the fresh globals. -/
theorem C9_capability_gating_witness :
    (Lua_init_globals (LuaFlags.mk false false false false false false false)
        initialGlobals).debugLib = LuaValue.nil ∧
    rawget (Lua_init_globals
        (LuaFlags.mk false false false false false false false)
        initialGlobals).osLib (LuaValue.str ("execute")) = LuaValue.nil := by
  have h := C9_capability_gating
  exact ⟨(h.2.1 (LuaFlags.mk false false false false false false false)
      initialGlobals).1,
    (h.2.1 (LuaFlags.mk false false false false false false false)
      initialGlobals).2.2.2.2.2.2.1 rfl⟩

/-- C10: a `run` call supplying exactly one of `var` and `value` raises
ValueError with the environment state unchanged and independent of the
load and call outcomes — so before anything is set, loaded or executed —
and a call supplying both runs the code on the state in which the
variable has already been set. -/
theorem C10_run_var_value (st : LuaState) (desc : Option String) (ks : Bool)
    (load : LoadResult) (call : PCallResult) :
    (∀ v, Lua_run st desc (some v) Option.none ks load call
        = (st, Except.error (PyErr.valueError
            ("var and value must both be present, or both be missing")))) ∧
    (∀ val, Lua_run st desc Option.none (some val) ks load call
        = (st, Except.error (PyErr.valueError
            ("var and value must both be present, or both be missing")))) ∧
    (∀ v val, Lua_run st desc (some v) (some val) ks load call
        = run_string { st with globals := set st.globals v val } ks load
            call) ∧
    Lua_run st desc Option.none Option.none ks load call
      = run_string st ks load call :=
  ⟨fun _ => rfl, fun _ => rfl, fun _ _ => rfl, rfl⟩

end PyLua
